import Mathlib

set_option maxRecDepth 10000

/-!
Shallow embedding of `src/prolog/hil_slurmctld_prolog.py` (HIL Slurm
reservation prolog/epilog hook) and proofs about its reservation
time-window calculation, naming, validation and lifecycle logic.

Modelling conventions:
* Python `datetime` values are modelled as `Int` seconds; `timedelta(seconds=n)`
  is addition of `n`.  The `strptime`/`strftime` format strings live in the
  repository's `hil_slurm_constants` module, which is not part of the sources
  under verification, so parsing and formatting are passed in as function
  parameters `parse : String → Int` and `fmt : Int → String`.
* Python's `needle in haystack` on strings is substring containment
  (`pyContains`), and `s.startswith(p)` is `pyStartsWith`.
* Configuration constants from `hil_slurm_settings` (prefixes, grace period,
  default duration, the `RES_CHECK_*` toggles) are parameters.
* Python runtime failures that the source actually exhibits (unbound local
  variables, attribute errors) are made explicit with `Except PyErr`.
-/

/-- Python string containment: `needle in hay`. -/
def pyContains (hay needle : String) : Bool :=
  decide (needle.toList <:+: hay.toList)

/-- Python `hay.startswith(pre)`. -/
def pyStartsWith (hay pre : String) : Bool :=
  decide (pre.toList <+: hay.toList)

/-- Split a character list at every occurrence of `c`; the pieces of
Python's `s.split('-')` (empty pieces included). -/
def splitOnChar (c : Char) : List Char → List (List Char)
  | [] => [[]]
  | x :: xs =>
    match splitOnChar c xs with
    | [] => [[x]]
    | y :: ys => if x = c then [] :: y :: ys else (x :: y) :: ys

/-- Python `s.split(c)` for a one-character separator, as strings. -/
def pySplit (s : String) (c : Char) : List String :=
  (splitOnChar c s.toList).map String.mk

/-- Runtime errors raised by the Python source on the paths modelled here. -/
inductive PyErr where
  | nameError (var : String)
  | attributeError (msg : String)
deriving DecidableEq, Repr

/-- Modelled from the spec: the command vocabulary / role tokens
`hil_reserve` are defined in `hil_slurm_constants`, which is not among the
sources; the spec fixes the token `hil_reserve`. -/
def HIL_RESERVE : String := "hil_reserve"

/-- Modelled from the spec: the `hil_release` command / role token from
`hil_slurm_constants` (not among the sources). -/
def HIL_RELEASE : String := "hil_release"

/--
`_get_hil_reservation_times(env_dict, pdata_dict, jobdata_dict)`.

Inputs are the job's `StartTime`, `EndTime` and `TimeLimit` strings and the
partition's `MaxTime` string.  Returns the start/end timestamp strings, or
the Python error the source raises:

* In the `len(d_hms) == 1` branch (MaxTime without a days field) the source
  computes `p_max_timedelta` but never assigns `t_end_dt`, so the final
  `t_end_dt.strftime(...)` raises an unbound-local error on `t_end_dt`.
* In the `len(d_hms) == 2` branch the source evaluates
  `datetime.timedelta(days=...)`, but `datetime` is the class imported by
  `from datetime import datetime, timedelta`, which has no `timedelta`
  attribute: an `AttributeError` is raised before anything else.
* In the unparseable-MaxTime branch the source logs and falls through with
  `t_end_dt` unbound.
* In the finite-time-limit branch (`'UNLIMITED' not in TimeLimit`) the source
  logs "Unsupported!" and `pass`es, leaving `t_end_dt` unbound.
-/
def get_hil_reservation_times (parse : String → Int) (fmt : Int → String)
    (grace dflt : Int) (jStart jEnd timeLimit maxTime : String) :
    Except PyErr (String × String) :=
  let tStart : Int := parse jStart
  let tEnd : Except PyErr Int :=
    if pyContains jEnd "Unknown" = false then
      -- Job has a defined end time.  Use it, extended by the grace period.
      Except.ok (parse jEnd + grace)
    else if pyContains timeLimit "UNLIMITED" = true then
      if pyContains maxTime "UNLIMITED" = true then
        -- Partition does not have a max time, use the HIL default duration.
        Except.ok (tStart + dflt)
      else
        match pySplit maxTime '-' with
        | [_hms] => Except.error (PyErr.nameError "t_end_dt")
        | [_d, _hms] =>
            Except.error (PyErr.attributeError "datetime.timedelta")
        | _ => Except.error (PyErr.nameError "t_end_dt")
    else
      -- Job has a finite time limit: `pass`, no end time is computed.
      Except.error (PyErr.nameError "t_end_dt")
  match tEnd with
  | Except.ok e => Except.ok (fmt tStart, fmt e)
  | Except.error err => Except.error err

/-- A concrete parse function (decimal seconds) used to evaluate the model
on closed inputs. -/
def exampleParse (s : String) : Int :=
  s.toList.foldl (fun acc c => acc * 10 + ((c.toNat - 48 : Nat) : Int)) 0

/-- A concrete format function used to evaluate the model on closed inputs. -/
def exampleFmt (i : Int) : String :=
  toString i

/-- C5: for a job whose `EndTime` does not contain "Unknown", the computed
reservation end is the job end time plus the grace period, whatever the
time limit and partition max time are; and for `MaxTime = "UNLIMITED"`
(with no job end time and an unlimited time limit) the end is the start
plus the default reservation duration. -/
theorem end_time_from_job_end_and_default
    (parse : String → Int) (fmt : Int → String) (grace dflt : Int)
    (jStart jEnd timeLimit maxTime : String) :
    (pyContains jEnd "Unknown" = false →
      get_hil_reservation_times parse fmt grace dflt jStart jEnd timeLimit maxTime
        = Except.ok (fmt (parse jStart), fmt (parse jEnd + grace)))
    ∧ (pyContains jEnd "Unknown" = true →
       pyContains timeLimit "UNLIMITED" = true →
       maxTime = "UNLIMITED" →
      get_hil_reservation_times parse fmt grace dflt jStart jEnd timeLimit maxTime
        = Except.ok (fmt (parse jStart), fmt (parse jStart + dflt))) := by
  constructor
  · intro h
    simp [get_hil_reservation_times, h]
  · intro h₁ h₂ h₃
    subst h₃
    simp [get_hil_reservation_times, h₁, h₂]
    rfl

/-- Witness for C5 at concrete inputs: a job ending at 200 with grace 600
gets reservation end 800; an unlimited job on an `UNLIMITED` partition with
start 100 and default duration 3600 gets end 3700. -/
theorem end_time_from_job_end_and_default_witness :
    (get_hil_reservation_times exampleParse exampleFmt 600 3600
        "100" "200" "UNLIMITED" "UNLIMITED" = Except.ok ("100", "800"))
    ∧ (get_hil_reservation_times exampleParse exampleFmt 600 3600
        "100" "Unknown" "UNLIMITED" "UNLIMITED" = Except.ok ("100", "3700")) := by
  constructor
  · have h := (end_time_from_job_end_and_default exampleParse exampleFmt 600 3600
      "100" "200" "UNLIMITED" "UNLIMITED").1 (by decide)
    rw [h]
    rfl
  · have h := (end_time_from_job_end_and_default exampleParse exampleFmt 600 3600
      "100" "Unknown" "UNLIMITED" "UNLIMITED").2 (by decide) (by decide) rfl
    rw [h]
    rfl

/-- C9: a job with a finite (non-"UNLIMITED") time limit and an undefined
("Unknown") end time reaches the `pass` branch: no end time is computed
from the time limit, and the trailing `t_end_dt.strftime(...)` fails on the
unbound local `t_end_dt` instead of returning `start + time_limit`. -/
theorem finite_time_limit_unsupported
    (parse : String → Int) (fmt : Int → String) (grace dflt : Int)
    (jStart jEnd timeLimit maxTime : String)
    (hEnd : pyContains jEnd "Unknown" = true)
    (hLim : pyContains timeLimit "UNLIMITED" = false) :
    get_hil_reservation_times parse fmt grace dflt jStart jEnd timeLimit maxTime
      = Except.error (PyErr.nameError "t_end_dt") := by
  simp [get_hil_reservation_times, hEnd, hLim]

/-- Witness for C9: end time "Unknown", time limit "1:00:00". -/
theorem finite_time_limit_unsupported_witness :
    get_hil_reservation_times exampleParse exampleFmt 600 3600
        "100" "Unknown" "1:00:00" "UNLIMITED"
      = Except.error (PyErr.nameError "t_end_dt") :=
  finite_time_limit_unsupported exampleParse exampleFmt 600 3600
    "100" "Unknown" "1:00:00" "UNLIMITED" (by decide) (by decide)

/-- C4 is a code bug: with no job end time, an unlimited time limit and a
partition MaxTime in `[days-]H:M:S` form, the source never produces
`start + max-time`.  With a days field (`"2-01:30:00"`) it raises an
`AttributeError` at `datetime.timedelta(days=...)` (the imported `datetime`
class has no `timedelta` attribute); without a days field (`"01:30:00"`) it
computes `p_max_timedelta` but never assigns `t_end_dt`, so the final
`strftime` fails on the unbound local. -/
theorem partition_max_time_branch_crashes :
    (get_hil_reservation_times exampleParse exampleFmt 600 3600
        "100" "Unknown" "UNLIMITED" "2-01:30:00"
      = Except.error (PyErr.attributeError "datetime.timedelta"))
    ∧ (get_hil_reservation_times exampleParse exampleFmt 600 3600
        "100" "Unknown" "UNLIMITED" "01:30:00"
      = Except.error (PyErr.nameError "t_end_dt")) :=
  ⟨rfl, rfl⟩

/--
`_get_hil_reservation_name(name_token, env_dict, t_start_s)`:
`HIL_RESERVATION_PREFIX + '_' + name_token + '_' + username + '_' +
job_uid + '_' + t_start_s`.  `HIL_RESERVATION_PREFIX` comes from
`hil_slurm_constants` (not among the sources) and is the parameter `pfx`.
-/
def get_hil_reservation_name (pfx nameToken username jobUid tStart : String) :
    String :=
  pfx ++ "_" ++ nameToken ++ "_" ++ username ++ "_" ++ jobUid ++ "_" ++ tStart

/--
`_delete_hil_reservation(env_dict, pdata_dict, jobdata_dict, resname)`.
The external `delete_slurm_reservation` call is the oracle `deleteRes`;
the second component of the result records the delete calls issued.
-/
def delete_hil_reservation (deleteRes : String → Option String × String)
    (pfx username resname : String) :
    (Option String × String) × List String :=
  if pyStartsWith resname (pfx ++ username) = false then
    ((none, "hil_release: error: Invalid reservation name"), [])
  else
    (deleteRes resname, [resname])

/-- C3: a delete request whose reservation name does not start with
`<prefix><username>` issues no external delete call and returns the
descriptive failure string; when the name does start with that prefix, the
delete is forwarded to the external manager. -/
theorem delete_guard_refuses_foreign_names
    (deleteRes : String → Option String × String) (pfx username resname : String) :
    (pyStartsWith resname (pfx ++ username) = false →
      delete_hil_reservation deleteRes pfx username resname
        = ((none, "hil_release: error: Invalid reservation name"), []))
    ∧ (pyStartsWith resname (pfx ++ username) = true →
      delete_hil_reservation deleteRes pfx username resname
        = (deleteRes resname, [resname])) := by
  constructor
  · intro h
    simp [delete_hil_reservation, h]
  · intro h
    simp [delete_hil_reservation, h]

/-- Witness for C3: "alice" may not delete `hil_bob_...`, and the delete of
`hil_alice_...` is forwarded. -/
theorem delete_guard_refuses_foreign_names_witness :
    (delete_hil_reservation (fun _ => (some "", "")) "hil_" "alice" "hil_bob_1001_100"
      = ((none, "hil_release: error: Invalid reservation name"), []))
    ∧ (delete_hil_reservation (fun _ => (some "", "")) "hil_" "alice" "hil_alice_1000_100"
      = ((some "", ""), ["hil_alice_1000_100"])) :=
  ⟨(delete_guard_refuses_foreign_names (fun _ => (some "", "")) "hil_" "alice"
      "hil_bob_1001_100").1 (by decide),
   (delete_guard_refuses_foreign_names (fun _ => (some "", "")) "hil_" "alice"
      "hil_alice_1000_100").2 (by decide)⟩

/-- C2 is a code bug: the name constructor inserts `'_' + role token + '_'`
between the prefix and the username, so a constructed name does not begin
with `<prefix><username>` — the very property the deletion guard checks.
Consequently the guard refuses the owner's own reservation name. -/
theorem reservation_name_breaks_guard_invariant :
    (get_hil_reservation_name "flexalloc_MOC_" HIL_RESERVE "alice" "1000" "20170501_100000"
      = "flexalloc_MOC__hil_reserve_alice_1000_20170501_100000")
    ∧ (pyStartsWith
        (get_hil_reservation_name "flexalloc_MOC_" HIL_RESERVE "alice" "1000" "20170501_100000")
        ("flexalloc_MOC_" ++ "alice") = false)
    ∧ (delete_hil_reservation (fun _ => (some "", "")) "flexalloc_MOC_" "alice"
        (get_hil_reservation_name "flexalloc_MOC_" HIL_RESERVE "alice" "1000" "20170501_100000")
      = ((none, "hil_release: error: Invalid reservation name"), [])) :=
  ⟨rfl, by decide, by decide⟩

/-- The `RES_CHECK_*` toggles from `hil_slurm_settings` (not among the
sources): each of the four configurable partition checks can be switched
off independently.  The name-prefix check has no toggle in the source. -/
structure ResCheckCfg where
  checkPartitionState : Bool
  checkDefaultPartition : Bool
  checkSharedPartition : Bool
  checkExclusivePartition : Bool

/-- The fields of the partition record consulted by the hook
(`scontrol show partition` key/value snapshot). -/
structure PData where
  PartitionName : String
  State : String
  Default : String
  Shared : String
  ExclusiveUser : String
  MaxTime : String

/--
`_check_hil_partition(env_dict, pdata_dict)`: `status` starts `True`; each
failing (enabled) check logs a message naming the offending attribute and
sets `status` to `False`.  Returns the final status and the log messages in
source order.  The transcription below evaluates each check once:
the conjunction equals the sequential `status` accumulation, and the list
concatenation appends exactly the messages of the failing enabled checks.
-/
def check_hil_partition (hilPartPfx : String) (cfg : ResCheckCfg)
    (username : String) (p : PData) : Bool × List String :=
  let nameOk := pyStartsWith p.PartitionName hilPartPfx
  let stateOk := !cfg.checkPartitionState || (p.State == "UP")
  let defaultOk := !cfg.checkDefaultPartition || !(p.Default == "YES")
  let sharedOk := !cfg.checkSharedPartition || (p.Shared == "NO")
  let exclOk := !cfg.checkExclusivePartition || (p.ExclusiveUser == "YES")
  (nameOk && stateOk && defaultOk && sharedOk && exclOk,
   (if nameOk then [] else
      ["Partition name `" ++ p.PartitionName ++ "` does not match `"
        ++ hilPartPfx ++ "*`"])
   ++ (if stateOk then [] else
      ["Partition `" ++ p.PartitionName ++ "` state (`" ++ p.State
        ++ "`) is not UP"])
   ++ (if defaultOk then [] else
      ["Partition `" ++ p.PartitionName
        ++ "` is the default partition, cannot be used for HIL"])
   ++ (if sharedOk then [] else
      ["Partition `" ++ p.PartitionName ++ "` is shared, cannot be used for HIL"])
   ++ (if exclOk then [] else
      ["Partition `" ++ p.PartitionName ++ "` not exclusive to `" ++ username
        ++ "`, cannot be used for HIL"]))

/-- C6: every enabled failing check makes the validator return failure and
log a reason naming the failing attribute, and each configurable check is
independently disabled by its toggle (with the toggle off, the attribute is
not consulted at all). -/
theorem check_hil_partition_flags_failures
    (hilPartPfx : String) (cfg : ResCheckCfg) (username : String) (p : PData)
    (s d sh ex : String) :
    (pyStartsWith p.PartitionName hilPartPfx = false →
      (check_hil_partition hilPartPfx cfg username p).1 = false
      ∧ ("Partition name `" ++ p.PartitionName ++ "` does not match `"
          ++ hilPartPfx ++ "*`") ∈ (check_hil_partition hilPartPfx cfg username p).2)
    ∧ (cfg.checkPartitionState = true → p.State ≠ "UP" →
      (check_hil_partition hilPartPfx cfg username p).1 = false
      ∧ ("Partition `" ++ p.PartitionName ++ "` state (`" ++ p.State
          ++ "`) is not UP") ∈ (check_hil_partition hilPartPfx cfg username p).2)
    ∧ (cfg.checkDefaultPartition = true → p.Default = "YES" →
      (check_hil_partition hilPartPfx cfg username p).1 = false
      ∧ ("Partition `" ++ p.PartitionName
          ++ "` is the default partition, cannot be used for HIL")
        ∈ (check_hil_partition hilPartPfx cfg username p).2)
    ∧ (cfg.checkSharedPartition = true → p.Shared ≠ "NO" →
      (check_hil_partition hilPartPfx cfg username p).1 = false
      ∧ ("Partition `" ++ p.PartitionName ++ "` is shared, cannot be used for HIL")
        ∈ (check_hil_partition hilPartPfx cfg username p).2)
    ∧ (cfg.checkExclusivePartition = true → p.ExclusiveUser ≠ "YES" →
      (check_hil_partition hilPartPfx cfg username p).1 = false
      ∧ ("Partition `" ++ p.PartitionName ++ "` not exclusive to `" ++ username
          ++ "`, cannot be used for HIL")
        ∈ (check_hil_partition hilPartPfx cfg username p).2)
    ∧ (cfg.checkPartitionState = false →
      check_hil_partition hilPartPfx cfg username p
        = check_hil_partition hilPartPfx cfg username { p with State := s })
    ∧ (cfg.checkDefaultPartition = false →
      check_hil_partition hilPartPfx cfg username p
        = check_hil_partition hilPartPfx cfg username { p with Default := d })
    ∧ (cfg.checkSharedPartition = false →
      check_hil_partition hilPartPfx cfg username p
        = check_hil_partition hilPartPfx cfg username { p with Shared := sh })
    ∧ (cfg.checkExclusivePartition = false →
      check_hil_partition hilPartPfx cfg username p
        = check_hil_partition hilPartPfx cfg username { p with ExclusiveUser := ex }) := by
  refine ⟨?_, ?_, ?_, ?_, ?_, ?_, ?_, ?_, ?_⟩
  · intro h
    constructor
    · simp [check_hil_partition, h]
    · simp [check_hil_partition, h]
  · intro hc h
    constructor
    · simp [check_hil_partition, hc, h]
    · simp [check_hil_partition, hc, h]
  · intro hc h
    constructor
    · simp [check_hil_partition, hc, h]
    · simp [check_hil_partition, hc, h]
  · intro hc h
    constructor
    · simp [check_hil_partition, hc, h]
    · simp [check_hil_partition, hc, h]
  · intro hc h
    constructor
    · simp [check_hil_partition, hc, h]
    · simp [check_hil_partition, hc, h]
  · intro hc
    simp [check_hil_partition, hc]
  · intro hc
    simp [check_hil_partition, hc]
  · intro hc
    simp [check_hil_partition, hc]
  · intro hc
    simp [check_hil_partition, hc]

/-- Witness for C6: a DOWN partition with the state check enabled fails
validation and the state message is logged; with the state check disabled,
the state value is irrelevant. -/
theorem check_hil_partition_flags_failures_witness :
    ((check_hil_partition "hil_"
        ⟨true, true, true, true⟩ "alice"
        ⟨"hil_part1", "DOWN", "NO", "NO", "YES", "UNLIMITED"⟩).1 = false
      ∧ "Partition `hil_part1` state (`DOWN`) is not UP"
          ∈ (check_hil_partition "hil_" ⟨true, true, true, true⟩ "alice"
              ⟨"hil_part1", "DOWN", "NO", "NO", "YES", "UNLIMITED"⟩).2)
    ∧ check_hil_partition "hil_" ⟨false, true, true, true⟩ "alice"
        ⟨"hil_part1", "DOWN", "NO", "NO", "YES", "UNLIMITED"⟩
      = check_hil_partition "hil_" ⟨false, true, true, true⟩ "alice"
        ⟨"hil_part1", "UP", "NO", "NO", "YES", "UNLIMITED"⟩ :=
  ⟨by
    have h := (check_hil_partition_flags_failures "hil_"
      ⟨true, true, true, true⟩ "alice"
      ⟨"hil_part1", "DOWN", "NO", "NO", "YES", "UNLIMITED"⟩ "" "" "" "").2.1
      rfl (by decide)
    exact h,
   by
    have h := (check_hil_partition_flags_failures "hil_"
      ⟨false, true, true, true⟩ "alice"
      ⟨"hil_part1", "DOWN", "NO", "NO", "YES", "UNLIMITED"⟩ "UP" "" "" "").2.2.2.2.2.1
      rfl
    exact h⟩

/-- What one `_create_hil_reservation` call did: the computed reservation
name, the start/end strings it would pass to `create_slurm_reservation`,
the stderr text it returned, and whether `create_slurm_reservation` was
actually invoked (`createCalled = false` means creation was skipped because
the reservation was taken to exist already). -/
structure CreateOutcome where
  resname : String
  tStart : String
  tEnd : String
  stderr : String
  createCalled : Bool
deriving DecidableEq, Repr

/--
`_create_hil_reservation(name_token, env_dict, pdata_dict, jobdata_dict)`.
`showRes` is the stderr text of `exec_scontrol_show_cmd('reservation', n)`
and `createRes` the stderr text of `create_slurm_reservation(n, ...)`, both
keyed by the reservation name.
-/
def create_hil_reservation (parse : String → Int) (fmt : Int → String)
    (grace dflt : Int) (showRes createRes : String → String)
    (pfx nameToken username jobUid : String)
    (jStart jEnd timeLimit maxTime : String) : Except PyErr CreateOutcome :=
  match get_hil_reservation_times parse fmt grace dflt jStart jEnd timeLimit maxTime with
  | Except.error e => Except.error e
  | Except.ok (t_start_s, t_end_s) =>
    let resname := get_hil_reservation_name pfx nameToken username jobUid t_start_s
    let stderr_data := showRes resname
    if stderr_data ≠ "" ∧ pyContains stderr_data "not found" = false then
      -- `scontrol show` errored with something other than "not found":
      -- treated as "reservation already exists", creation skipped.
      Except.ok ⟨resname, t_start_s, t_end_s, stderr_data, false⟩
    else
      Except.ok ⟨resname, t_start_s, t_end_s, createRes resname, true⟩

/-- C7: before creating, the hook queries the external manager for the
computed name; creation is skipped (and the existing name reported) exactly
when the query's stderr is non-empty and does not contain "not found";
otherwise the reservation is created. -/
theorem create_skips_existing_reservation
    (parse : String → Int) (fmt : Int → String) (grace dflt : Int)
    (showRes createRes : String → String)
    (pfx nameToken username jobUid : String)
    (jStart jEnd timeLimit maxTime ts te : String)
    (htimes : get_hil_reservation_times parse fmt grace dflt jStart jEnd timeLimit maxTime
      = Except.ok (ts, te)) :
    (showRes (get_hil_reservation_name pfx nameToken username jobUid ts) ≠ ""
       ∧ pyContains (showRes (get_hil_reservation_name pfx nameToken username jobUid ts))
           "not found" = false →
      create_hil_reservation parse fmt grace dflt showRes createRes
          pfx nameToken username jobUid jStart jEnd timeLimit maxTime
        = Except.ok ⟨get_hil_reservation_name pfx nameToken username jobUid ts, ts, te,
            showRes (get_hil_reservation_name pfx nameToken username jobUid ts), false⟩)
    ∧ (¬(showRes (get_hil_reservation_name pfx nameToken username jobUid ts) ≠ ""
       ∧ pyContains (showRes (get_hil_reservation_name pfx nameToken username jobUid ts))
           "not found" = false) →
      create_hil_reservation parse fmt grace dflt showRes createRes
          pfx nameToken username jobUid jStart jEnd timeLimit maxTime
        = Except.ok ⟨get_hil_reservation_name pfx nameToken username jobUid ts, ts, te,
            createRes (get_hil_reservation_name pfx nameToken username jobUid ts), true⟩) := by
  constructor
  · intro h
    simp [create_hil_reservation, htimes, h]
  · intro h
    simp only [create_hil_reservation, htimes]
    rw [if_neg h]

/-- Witness for C7: when the show query reports a pre-existing reservation
(stderr "error"), creation is skipped; when it reports "not found",
creation proceeds. -/
theorem create_skips_existing_reservation_witness :
    (create_hil_reservation exampleParse exampleFmt 600 3600
        (fun _ => "error") (fun _ => "") "hil_" "hil_reserve" "alice" "1000"
        "100" "200" "UNLIMITED" "UNLIMITED"
      = Except.ok ⟨"hil__hil_reserve_alice_1000_100", "100", "800", "error", false⟩)
    ∧ (create_hil_reservation exampleParse exampleFmt 600 3600
        (fun _ => "not found") (fun _ => "") "hil_" "hil_reserve" "alice" "1000"
        "100" "200" "UNLIMITED" "UNLIMITED"
      = Except.ok ⟨"hil__hil_reserve_alice_1000_100", "100", "800", "", true⟩) := by
  constructor
  · have h := (create_skips_existing_reservation exampleParse exampleFmt 600 3600
      (fun _ => "error") (fun _ => "") "hil_" "hil_reserve" "alice" "1000"
      "100" "200" "UNLIMITED" "UNLIMITED" "100" "800" (by rfl)).1
      (by constructor <;> decide)
    rw [h]
    rfl
  · have h := (create_skips_existing_reservation exampleParse exampleFmt 600 3600
      (fun _ => "not found") (fun _ => "") "hil_" "hil_reserve" "alice" "1000"
      "100" "200" "UNLIMITED" "UNLIMITED" "100" "800" (by rfl)).2
      (by intro hx; exact absurd hx.2 (by decide))
    rw [h]
    rfl

/-- Any successful `_create_hil_reservation` call passes exactly the window
computed by `_get_hil_reservation_times` to the created reservation. -/
theorem create_outcome_window (parse : String → Int) (fmt : Int → String)
    (grace dflt : Int) (showRes createRes : String → String)
    (pfx nameToken username jobUid : String)
    (jStart jEnd timeLimit maxTime ts te : String) (o : CreateOutcome)
    (htimes : get_hil_reservation_times parse fmt grace dflt jStart jEnd timeLimit maxTime
      = Except.ok (ts, te))
    (h : create_hil_reservation parse fmt grace dflt showRes createRes
        pfx nameToken username jobUid jStart jEnd timeLimit maxTime = Except.ok o) :
    o.tStart = ts ∧ o.tEnd = te := by
  unfold create_hil_reservation at h
  rw [htimes] at h
  simp only at h
  split at h <;> (cases h; exact ⟨rfl, rfl⟩)

/--
`_hil_reserve_cmd(env_dict, pdata_dict, jobdata_dict)`: create the reserve
reservation (role token `HIL_RESERVE`), then the release reservation (role
token `HIL_RELEASE`), both from the same job/partition data.
-/
def hil_reserve_cmd (parse : String → Int) (fmt : Int → String)
    (grace dflt : Int) (showRes createRes : String → String)
    (pfx username jobUid : String)
    (jStart jEnd timeLimit maxTime : String) :
    Except PyErr (CreateOutcome × CreateOutcome) :=
  match create_hil_reservation parse fmt grace dflt showRes createRes
      pfx HIL_RESERVE username jobUid jStart jEnd timeLimit maxTime with
  | Except.error e => Except.error e
  | Except.ok reserveOutcome =>
    match create_hil_reservation parse fmt grace dflt showRes createRes
        pfx HIL_RELEASE username jobUid jStart jEnd timeLimit maxTime with
    | Except.error e => Except.error e
    | Except.ok releaseOutcome => Except.ok (reserveOutcome, releaseOutcome)

/-- C10 counterexample: at a concrete reserve invocation (job start 100,
job end 200, grace period 600) both reservations are created with the same
window, so the release reservation's start (100) is strictly before the
reserve reservation's end (800) — not at or after it. -/
theorem release_start_before_reserve_end_cx :
    (hil_reserve_cmd exampleParse exampleFmt 600 3600
        (fun _ => "") (fun _ => "") "hil_" "alice" "1000"
        "100" "200" "tl" "mt").map
      (fun p => (p.1.tEnd, p.2.tStart,
        decide (exampleParse p.2.tStart < exampleParse p.1.tEnd)))
      = Except.ok ("800", "100", true) := by
  rfl

/-- C10 amended: the reserve command computes the reservation window once
per creation from the same job data, so the release reservation is given
exactly the reserve reservation's start and end times (its start is not
placed at or after the reserve reservation's end). -/
theorem reserve_and_release_share_window
    (parse : String → Int) (fmt : Int → String) (grace dflt : Int)
    (showRes createRes : String → String)
    (pfx username jobUid : String)
    (jStart jEnd timeLimit maxTime : String)
    (o₁ o₂ : CreateOutcome)
    (h : hil_reserve_cmd parse fmt grace dflt showRes createRes
        pfx username jobUid jStart jEnd timeLimit maxTime = Except.ok (o₁, o₂)) :
    o₁.tStart = o₂.tStart ∧ o₁.tEnd = o₂.tEnd := by
  unfold hil_reserve_cmd at h
  cases htimes : get_hil_reservation_times parse fmt grace dflt jStart jEnd
      timeLimit maxTime with
  | error e =>
    rw [show create_hil_reservation parse fmt grace dflt showRes createRes
        pfx HIL_RESERVE username jobUid jStart jEnd timeLimit maxTime
        = Except.error e by simp [create_hil_reservation, htimes]] at h
    cases h
  | ok tse =>
    obtain ⟨ts, te⟩ := tse
    cases hc₁ : create_hil_reservation parse fmt grace dflt showRes createRes
        pfx HIL_RESERVE username jobUid jStart jEnd timeLimit maxTime with
    | error e => rw [hc₁] at h; cases h
    | ok a =>
      cases hc₂ : create_hil_reservation parse fmt grace dflt showRes createRes
          pfx HIL_RELEASE username jobUid jStart jEnd timeLimit maxTime with
      | error e => rw [hc₁, hc₂] at h; cases h
      | ok b =>
        rw [hc₁, hc₂] at h
        injection h with h'
        have e₁ : a = o₁ := congrArg Prod.fst h'
        have e₂ : b = o₂ := congrArg Prod.snd h'
        obtain ⟨ha₁, ha₂⟩ := create_outcome_window parse fmt grace dflt showRes
          createRes pfx HIL_RESERVE username jobUid jStart jEnd timeLimit maxTime
          ts te a htimes hc₁
        obtain ⟨hb₁, hb₂⟩ := create_outcome_window parse fmt grace dflt showRes
          createRes pfx HIL_RELEASE username jobUid jStart jEnd timeLimit maxTime
          ts te b htimes hc₂
        exact ⟨(e₁ ▸ ha₁).trans (e₂ ▸ hb₁).symm, (e₁ ▸ ha₂).trans (e₂ ▸ hb₂).symm⟩

/-- Witness for the amended C10 at the concrete reserve invocation used in
the counterexample: both outcomes carry start "100" and end "800". -/
theorem reserve_and_release_share_window_witness :
    (CreateOutcome.mk "hil__hil_reserve_alice_1000_100" "100" "800" "" true).tStart
      = (CreateOutcome.mk "hil__hil_release_alice_1000_100" "100" "800" "" true).tStart
    ∧ (CreateOutcome.mk "hil__hil_reserve_alice_1000_100" "100" "800" "" true).tEnd
      = (CreateOutcome.mk "hil__hil_release_alice_1000_100" "100" "800" "" true).tEnd :=
  reserve_and_release_share_window exampleParse exampleFmt 600 3600
    (fun _ => "") (fun _ => "") "hil_" "alice" "1000"
    "100" "200" "tl" "mt" _ _ (by rfl)

/-- Externally observable actions of the release command. -/
inductive HilAction where
  | logError (msg : String)
  | deleteCall (resname : String)
  | updateCall (resname : String)
deriving DecidableEq, Repr

/--
`_hil_release_cmd(env_dict, pdata_dict, jobdata_dict)`.

The source reads `reserve_resname = jobdata_dict['Reservation']` and then,
in all three branches under `if reserve_resname:`, refers to the *unbound*
local `resname`:

* `username not in reserve_resname` branch: `log_error(... % (resname, ...))`
  raises on the unbound `resname` before anything is logged;
* `HIL_RESERVE not in reserve_resname` branch: likewise;
* the validated branch passes `resname` as argument to
  `_delete_hil_reservation`, raising before any delete is issued (and the
  subsequent "transform the name" step is a bare `re.sub()` with `re` never
  imported, while `_modify_hil_reservation` — the update of the release
  reservation's start time — is never called and is itself a syntax error:
  line 230 ends in a stray `:`).

Only the empty-reservation branch completes: it logs the error and aborts.
-/
def hil_release_cmd (username jobName reservation : String) :
    Except PyErr (List HilAction) :=
  let reserve_resname := reservation
  if reserve_resname.isEmpty = false then
    if pyContains reserve_resname username = false then
      Except.error (PyErr.nameError "resname")
    else if pyContains reserve_resname HIL_RESERVE = false then
      Except.error (PyErr.nameError "resname")
    else
      Except.error (PyErr.nameError "resname")
  else
    Except.ok [HilAction.logError
      ("No reservation name specified to `" ++ jobName ++ "` command")]

/-- C1 is a code bug: on a release invocation whose attached reservation
name contains both the username and the "reserve" role token (here user
"alice" with reservation `hil__hil_reserve_alice_1000_100`), the command
raises on the unbound local `resname` — the reserve reservation is never
deleted and the release reservation's start time is never updated (no
`deleteCall`/`updateCall` action is ever produced). -/
theorem release_success_path_raises :
    hil_release_cmd "alice" "hil_release" "hil__hil_reserve_alice_1000_100"
      = Except.error (PyErr.nameError "resname") := by
  rfl

/-- C8 is a code bug: when the reservation name lacks the username (first
case: user "bob", name `hil__hil_reserve_alice_1000_100`) or lacks the
"reserve" role token (second case: name `hil__hil_release_alice_1000_100`),
the command does abort without any deletion or mutation, but no error is
logged: the `log_error` call itself raises on the unbound local `resname`.
Only the no-reservation-attached case (third conjunct) logs the error and
aborts as the claim describes. -/
theorem release_precondition_failures :
    (hil_release_cmd "bob" "hil_release" "hil__hil_reserve_alice_1000_100"
      = Except.error (PyErr.nameError "resname"))
    ∧ (hil_release_cmd "alice" "hil_release" "hil__hil_release_alice_1000_100"
      = Except.error (PyErr.nameError "resname"))
    ∧ (hil_release_cmd "alice" "hil_release" ""
      = Except.ok [HilAction.logError
          "No reservation name specified to `hil_release` command"]) :=
  ⟨by rfl, by rfl, by rfl⟩
